import Mathlib

/-!
Shallow embedding of the two source modules of this repository:

* `telegram/ext/_callbackcontext.py` — the `CallbackContext` class
  (per-event execution context with chat/user data bindings).
* `telegram/request/_httpxrequest.py` — the `HTTPXRequest` class
  (pooled transport over the third-party httpx client).

Python dictionaries held in the dispatcher's keyed stores are modelled by a
heap (`Heap`): addresses (`Nat`) pointing to association lists.  A context's
binding stores the *address*, so reference identity and mutation visibility
are expressible.  Exceptions are modelled with explicit error values
(`PyErr`), and fallible operations return `Except` or a `state × Option PyErr`
pair when the pre-raise state matters.
-/

namespace Spec2Proof

/-- Python exception values that occur in the two modules (the spec's fault
taxonomy names in parentheses): `AttributeError` (ImmutableAttributeFault),
`RuntimeError` (ConfigurationFault), `KeyError` (CacheMissFault),
`telegram.error.TimedOut`, `telegram.error.NetworkError`, and the builtin
`IndexError`/`TypeError` that the `match` property catches internally. -/
inductive PyErr where
  | attributeError (msg : String)
  | runtimeError (msg : String)
  | keyError (key : String)
  | indexError
  | typeError
  | timedOut
  | networkError (msg : String)
  deriving DecidableEq, Repr

/-! ### Dictionaries and the heap

The dispatcher's chat/user stores map ids to *shared dictionary instances*;
we model a dictionary instance as an address into a heap so that aliasing
("the exact dictionary instance, never a copy") is a provable statement. -/

/-- One Python dict's contents: an association list, first match wins. -/
def Dict (V : Type) : Type := List (String × V)

/-- The heap of dictionary objects: address → contents. -/
def Heap (V : Type) : Type := Nat → Dict V

/-- Python `d[k] = v` on the dict at address `r`. -/
def writeKey {V : Type} (h : Heap V) (r : Nat) (k : String) (v : V) : Heap V :=
  fun r' => if r' = r then (k, v) :: (h r').filter (fun p => p.1 != k) else h r'

/-- Python `d.get(k)` on the dict at address `r`. -/
def readKey {V : Type} (h : Heap V) (r : Nat) (k : String) : Option V :=
  ((h r).find? (fun p => p.1 == k)).map Prod.snd

/-! ### Telegram domain objects used by `from_update` -/

/-- Embeds `telegram.Chat`, restricted to the only attribute the context reads. -/
structure Chat where
  id : Int
  deriving DecidableEq, Repr

/-- Embeds `telegram.User`, restricted to the only attribute the context reads. -/
structure User where
  id : Int
  deriving DecidableEq, Repr

/-- Embeds `telegram.Update`, restricted to the two effective entities
`from_update` reads. -/
structure Update where
  effective_chat : Option Chat
  effective_user : Option User
  deriving DecidableEq, Repr

/-- The `update: object` argument of `from_update`/`from_error`: Python's
`None`, a genuine `telegram.Update` instance, or an arbitrary other object
(represented by an opaque tag), matching the source's
`update is not None and isinstance(update, Update)` test. -/
inductive UpdateObj where
  | pyNone
  | update (u : Update)
  | other (tag : Nat)
  deriving DecidableEq, Repr

/-! ### Bot and callback-data cache (collaborators of `drop_callback_data`) -/

/-- Modelled from the spec: the callback-data cache owned by
`telegram.ext.ExtBot` (`bot.callback_data_cache`), whose class lives outside
the two source files.  Per the spec, it maps callback-data ids to an optional
cached payload; a *found id with a missing payload* is a valid state. -/
structure CallbackDataCache where
  entries : List (String × Option String)
  deriving DecidableEq, Repr

/-- Modelled from the spec: `CallbackDataCache.drop_data(callback_query)` —
"removes any cached payload for that query's callback-data id from the cache;
fails with a not-found fault only if the callback query's id itself cannot be
located in the cache (a missing cached payload for a found id is not an
error)".  The query is represented by its callback-data id. -/
def CallbackDataCache.drop_data (c : CallbackDataCache) (qid : String) :
    Except PyErr CallbackDataCache :=
  if qid ∈ c.entries.map Prod.fst then
    Except.ok ⟨c.entries.map (fun p => if p.1 = qid then (p.1, none) else p)⟩
  else
    Except.error (PyErr.keyError qid)

/-- The bot held by the dispatcher: either a plain `telegram.Bot` (not
capability-bearing) or a `telegram.ext.ExtBot` carrying the
`arbitrary_callback_data` flag and the callback-data cache, matching the
`isinstance(self.bot, ExtBot)` dispatch in `drop_callback_data`. -/
inductive TgBot where
  | plain
  | ext (arbitrary_callback_data : Bool) (cache : CallbackDataCache)
  deriving DecidableEq, Repr

/-! ### Dispatcher (external collaborator) -/

/-- The dispatcher, restricted to what the context reads: the three keyed
stores and the bot.  `chat_data`/`user_data` are defaultdict-like total maps
from id to the address of that id's dict (creating the per-id dict is the
dispatcher's responsibility, so lookup always yields an address). -/
structure Dispatcher where
  chat_data : Int → Nat
  user_data : Int → Nat
  bot_data : Nat
  bot : TgBot

/-! ### CallbackContext (typed view: fields as the source annotates them) -/

/-- Embeds `telegram.ext.CallbackContext`, parametrised by the type `M` of regex
match objects.  Field names follow the source's slots (leading underscores
dropped): `_dispatcher`, `_chat_id_and_data`, `_user_id_and_data`, `args`,
`matches`, `error`, `job`, `async_args`, `async_kwargs`.  Bindings hold
`(id, dict address)` pairs. -/
structure CallbackContext (M : Type) where
  dispatcher : Dispatcher
  chat_id_and_data : Option (Int × Nat)
  user_id_and_data : Option (Int × Nat)
  args : Option (List String)
  «matches» : Option (List M)
  error : Option PyErr
  job : Option Nat
  async_args : Option (List Nat)
  async_kwargs : Option (List (String × Nat))

namespace CallbackContext

variable {M : Type}

/-- Embeds `CallbackContext.__init__(dispatcher)`: every optional field starts out
as `None`. -/
def init (d : Dispatcher) : CallbackContext M :=
  ⟨d, none, none, none, none, none, none, none, none⟩

/-- Embeds `CallbackContext.from_update(update, dispatcher)`: bindings are resolved
only when the argument is a non-`None` `Update` instance; each binding pairs
the effective id with the dispatcher's stored dict (its address) for that
id. -/
def from_update (upd : UpdateObj) (d : Dispatcher) : CallbackContext M :=
  let s : CallbackContext M := init d
  match upd with
  | UpdateObj.update u =>
      let s := match u.effective_chat with
        | some chat => { s with chat_id_and_data := some (chat.id, d.chat_data chat.id) }
        | none => s
      match u.effective_user with
      | some user => { s with user_id_and_data := some (user.id, d.user_data user.id) }
      | none => s
  | _ => s

/-- Embeds `CallbackContext.from_error(update, error, dispatcher, async_args,
async_kwargs, job)`: builds via `from_update`, then attaches the error data
unconditionally. -/
def from_error (upd : UpdateObj) (err : PyErr) (d : Dispatcher)
    (as : Option (List Nat)) (ak : Option (List (String × Nat)))
    (j : Option Nat) : CallbackContext M :=
  { from_update upd d with error := some err, async_args := as, async_kwargs := ak, job := j }

/-- Embeds `CallbackContext.from_job(job, dispatcher)`. -/
def from_job (j : Nat) (d : Dispatcher) : CallbackContext M :=
  { init (M := M) d with job := some j }

/-- The `bot_data` property getter: forwards to the dispatcher's global
store (its address). -/
def bot_data (ctx : CallbackContext M) : Nat :=
  ctx.dispatcher.bot_data

/-- The `chat_data` property getter: the second component of the binding
when one exists, else `None`. -/
def chat_data (ctx : CallbackContext M) : Option Nat :=
  match ctx.chat_id_and_data with
  | some p => some p.2
  | none => none

/-- The `user_data` property getter. -/
def user_data (ctx : CallbackContext M) : Option Nat :=
  match ctx.user_id_and_data with
  | some p => some p.2
  | none => none

/-- The `bot` property getter: forwards to the dispatcher. -/
def bot (ctx : CallbackContext M) : TgBot :=
  ctx.dispatcher.bot

/-- Embeds `self.matches[0]`: Python subscripting of the `matches` field, which the
source annotates `Optional[List[Match]]` — raises `TypeError` on `None`
(not subscriptable) and `IndexError` on an empty list. -/
def subscript0 : Option (List M) → Except PyErr M
  | none => Except.error PyErr.typeError
  | some [] => Except.error PyErr.indexError
  | some (x :: _) => Except.ok x

/-- The `match` property: `try: return self.matches[0] except (IndexError,
TypeError): return None`.  (Named `matchAttr` because `match` is reserved in
Lean.) -/
def matchAttr (ctx : CallbackContext M) : Except PyErr (Option M) :=
  match subscript0 ctx.matches with
  | Except.ok x => Except.ok (some x)
  | Except.error PyErr.indexError => Except.ok none
  | Except.error PyErr.typeError => Except.ok none
  | Except.error e => Except.error e

/-- Embeds `CallbackContext.drop_callback_data(callback_query)` (query represented
by its callback-data id): `ExtBot` without the flag or a plain `Bot` raise
`RuntimeError`; otherwise the cache's `drop_data` runs.  On success the
updated cache is returned. -/
def drop_callback_data (ctx : CallbackContext M) (qid : String) :
    Except PyErr CallbackDataCache :=
  match ctx.bot with
  | TgBot.ext acd cache =>
      if ¬ acd then
        Except.error (PyErr.runtimeError
          "This telegram.ext.ExtBot instance does not use arbitrary callback data.")
      else
        cache.drop_data qid
  | TgBot.plain =>
      Except.error (PyErr.runtimeError
        "telegram.Bot does not allow for arbitrary callback data.")

end CallbackContext

/-! ### CallbackContext (attribute view: Python `setattr` semantics)

`CallbackContext.update(data)` runs `setattr(self, key, value)` for every
pair.  Python resolves `setattr` through class-level descriptors first: the
three data-view properties have setters that raise `AttributeError`; the
other properties (`dispatcher`, `bot`, `job_queue`, `update_queue`, `match`)
have no setter, so assignment raises `AttributeError` as well; every other
name lands in a slot or in the instance `__dict__` (the class declares
`__dict__` in its `__slots__`).  We model the writable attribute state as a
single association map. -/

/-- The three read-only data views (properties whose setters raise). -/
def dataViewNames : List String := ["bot_data", "chat_data", "user_data"]

/-- The remaining read-only properties (no setter defined). -/
def noSetterNames : List String := ["dispatcher", "bot", "job_queue", "update_queue", "match"]

/-- The writable attribute state of a context: name → value, first match
wins (covers both the writable slots and the open `__dict__`). -/
structure AttrState (V : Type) where
  attrs : List (String × V)
  deriving DecidableEq, Repr

namespace AttrState

variable {V : Type}

/-- Attribute read on the writable state. -/
def getattr (s : AttrState V) (n : String) : Option V :=
  ((s.attrs.find? (fun p => p.1 == n)).map Prod.snd)

/-- A successful attribute write (slot or `__dict__` entry). -/
def setRaw (s : AttrState V) (n : String) (v : V) : AttrState V :=
  ⟨(n, v) :: s.attrs⟩

/-- Embeds `setattr(self, n, v)` with the class's descriptors: returns the
post-statement state together with the raised exception, if any.  The
data-view setters raise with the source's message; the setterless
properties raise Python's generic message; anything else is stored. -/
def setattrCtx (s : AttrState V) (n : String) (v : V) : AttrState V × Option PyErr :=
  if n ∈ dataViewNames then
    (s, some (PyErr.attributeError
      ("You can not assign a new value to " ++ n ++ ", see https://git.io/Jt6ic")))
  else if n ∈ noSetterNames then
    (s, some (PyErr.attributeError "can not set attribute"))
  else
    (setRaw s n v, none)

/-- Embeds `CallbackContext.update(data)`: `for key, value in data.items():
setattr(self, key, value)` — sequential, and a raised exception aborts the
loop (earlier writes persist). -/
def update (s : AttrState V) (data : List (String × V)) : AttrState V × Option PyErr :=
  match data with
  | [] => (s, none)
  | (k, v) :: rest =>
      match setattrCtx s k v with
      | (s', none) => update s' rest
      | (s', some e) => (s', some e)

end AttrState

/-! ### Transport layer: `HTTPXRequest` over an httpx `AsyncClient`

Timeout seconds are modelled as rationals; `none` is an infinite timeout
(Python `None`). -/

/-- Embeds `httpx.Timeout`: the four timeout dimensions. -/
structure TimeoutSpec where
  connect : Option ℚ
  read : Option ℚ
  write : Option ℚ
  pool : Option ℚ
  deriving DecidableEq, Repr

/-- The lifecycle state of the pooled client: open after construction,
closed once `aclose()` has run. -/
inductive ClientState where
  | opened
  | closed
  deriving DecidableEq, Repr

/-- The httpx `AsyncClient`, restricted to what the source reads and
mutates: its construction-time timeout and its lifecycle state. -/
structure AsyncClient where
  timeout : TimeoutSpec
  state : ClientState
  deriving DecidableEq, Repr

/-- Exceptions the underlying client can raise from `request`, with the
httpx hierarchy flattened: every `TimeoutException` (connect/read/write/pool
flavours) *is a* `TransportError` *is an* `HTTPError`; other `HTTPError`s
carry a message; and a client used after `aclose()` raises a builtin
`RuntimeError`, which is outside the httpx hierarchy. -/
inductive ClientErr where
  | connectTimeout
  | readTimeout
  | writeTimeout
  | poolTimeout
  | httpError (msg : String)
  | runtimeClosed
  deriving DecidableEq, Repr

/-- Embeds `isinstance(err, httpx.TimeoutException)`. -/
def ClientErr.isTimeoutException : ClientErr → Bool
  | ClientErr.connectTimeout => true
  | ClientErr.readTimeout => true
  | ClientErr.writeTimeout => true
  | ClientErr.poolTimeout => true
  | _ => false

/-- Embeds `isinstance(err, httpx.HTTPError)`: every timeout is an `HTTPError`;
the builtin `RuntimeError` is not. -/
def ClientErr.isHTTPError : ClientErr → Bool
  | ClientErr.runtimeClosed => false
  | _ => true

/-- The `str(err)` text used in the `NetworkError` message (only non-timeout
`HTTPError`s reach that branch, and they carry their message). -/
def ClientErr.httpErrMsg : ClientErr → String
  | ClientErr.httpError m => m
  | _ => ""

/-- Which of the four timeout dimensions elapsed. -/
inductive TimeoutKind where
  | connect
  | read
  | write
  | pool
  deriving DecidableEq, Repr

/-- The `httpx.TimeoutException` subclass for a given elapsed dimension. -/
def TimeoutKind.toErr : TimeoutKind → ClientErr
  | TimeoutKind.connect => ClientErr.connectTimeout
  | TimeoutKind.read => ClientErr.readTimeout
  | TimeoutKind.write => ClientErr.writeTimeout
  | TimeoutKind.pool => ClientErr.poolTimeout

/-- What the network does to one outgoing call on an open client: a
response, a timeout, or another transport/protocol failure. -/
inductive NetOutcome where
  | success (status : Nat) (body : List Nat)
  | timeoutErr (k : TimeoutKind)
  | httpErr (msg : String)
  deriving DecidableEq, Repr

/-- Modelled from the spec: the third-party client collaborator's
`request` call (httpx's `AsyncClient.request`), which lives outside this
repository.  On an open client it yields the ambient network outcome
(where a timeout outcome surfaces as the corresponding
`TimeoutException`); on a closed client it raises the builtin
`RuntimeError` ("Cannot send a request, as the client has been closed."),
matching the spec's resource-lifetime contract that post-`stop` requests
fail rather than hang or succeed.  `t` is the per-call timeout the caller
hands over (`timeout=timeout` at the call site); the model network's
outcome already reflects whichever timeout elapsed. -/
def AsyncClient.request (c : AsyncClient) (_t : TimeoutSpec) (net : NetOutcome) :
    Except ClientErr (Nat × List Nat) :=
  match c.state with
  | ClientState.closed => Except.error ClientErr.runtimeClosed
  | ClientState.opened =>
      match net with
      | NetOutcome.success s b => Except.ok (s, b)
      | NetOutcome.timeoutErr k => Except.error k.toErr
      | NetOutcome.httpErr m => Except.error (ClientErr.httpError m)

/-- What `do_request` raises: the two taxonomy faults from
`telegram.error`, or an exception that neither `except` clause catches and
therefore escapes unmapped. -/
inductive DoReqErr where
  | timedOut
  | networkError (msg : String)
  | uncaught (e : ClientErr)
  deriving DecidableEq, Repr

/-- Embeds `HTTPXRequest`: its slots are `_connection_pool_size` and `_client`. -/
structure HTTPXRequest where
  connection_pool_size : Nat
  client : AsyncClient
  deriving DecidableEq, Repr

namespace HTTPXRequest

/-- Embeds `HTTPXRequest.__init__`: builds the construction-time
`httpx.Timeout(connect, read, write, pool)` and the pooled client (open). -/
def construct (connection_pool_size : Nat) (connect_timeout read_timeout
    write_timeout pool_timeout : Option ℚ) : HTTPXRequest :=
  { connection_pool_size := connection_pool_size,
    client := { timeout := { connect := connect_timeout, read := read_timeout,
                             write := write_timeout, pool := pool_timeout },
                state := ClientState.opened } }

/-- Embeds `HTTPXRequest.__init__` with its default arguments
(pool size 1, connect/read/write 5.0s, pool 1.0s). -/
def constructDefault : HTTPXRequest :=
  construct 1 (some 5) (some 5) (some 5) (some 1)

/-- Embeds `HTTPXRequest.stop()`: `await self._client.aclose()`. -/
def stop (self : HTTPXRequest) : HTTPXRequest :=
  { self with client := { self.client with state := ClientState.closed } }

/-- Embeds `HTTPXRequest.do_request(...)`, line for line: build a fresh
`httpx.Timeout` from the instance client's four dimensions, overwrite on the
fresh object each dimension the caller supplied, issue the request with that
call-local timeout, and map `httpx.TimeoutException` to `TimedOut` before
mapping `httpx.HTTPError` to `NetworkError`.  Returns the call result, the
effective timeout handed to the client, and the post-call instance. -/
def do_request (self : HTTPXRequest)
    (connect_timeout read_timeout write_timeout pool_timeout : Option ℚ)
    (net : NetOutcome) :
    Except DoReqErr (Nat × List Nat) × TimeoutSpec × HTTPXRequest :=
  let t0 : TimeoutSpec :=
    { connect := self.client.timeout.connect, read := self.client.timeout.read,
      write := self.client.timeout.write, pool := self.client.timeout.pool }
  let t1 := match read_timeout with
    | some r => { t0 with read := some r }
    | none => t0
  let t2 := match write_timeout with
    | some w => { t1 with write := some w }
    | none => t1
  let t3 := match connect_timeout with
    | some c => { t2 with connect := some c }
    | none => t2
  let t4 := match pool_timeout with
    | some p => { t3 with pool := some p }
    | none => t3
  let result : Except DoReqErr (Nat × List Nat) :=
    match self.client.request t4 net with
    | Except.ok (s, b) => Except.ok (s, b)
    | Except.error e =>
        if e.isTimeoutException then
          Except.error DoReqErr.timedOut
        else if e.isHTTPError then
          Except.error (DoReqErr.networkError ("httpx HTTPError: " ++ ClientErr.httpErrMsg e))
        else
          Except.error (DoReqErr.uncaught e)
  (result, t4, self)

end HTTPXRequest

/-- Whether a `do_request` failure lies in the spec's fixed transport fault
taxonomy (`TimedOut` / `NetworkError`), as opposed to an exception that
escapes the two `except` clauses unmapped. -/
def DoReqErr.inTaxonomy : DoReqErr → Bool
  | DoReqErr.timedOut => true
  | DoReqErr.networkError _ => true
  | DoReqErr.uncaught _ => false

/-- A sample dispatcher used by concrete witnesses: chat dicts live at the
address `|id|`, user dicts at `|id| + 1000`, the global dict at `2000`. -/
def dSample : Dispatcher :=
  { chat_data := fun i => i.natAbs, user_data := fun i => i.natAbs + 1000,
    bot_data := 2000, bot := TgBot.plain }

/-! ## Helper lemmas for the attribute model -/

namespace AttrState

variable {V : Type}

theorem setattrCtx_ok (s : AttrState V) (k : String) (v : V)
    (h1 : k ∉ dataViewNames) (h2 : k ∉ noSetterNames) :
    setattrCtx s k v = (setRaw s k v, none) := by
  simp [setattrCtx, h1, h2]

theorem getattr_setRaw_self (s : AttrState V) (k : String) (v : V) :
    getattr (setRaw s k v) k = some v := by
  simp [getattr, setRaw, List.find?]

theorem getattr_setRaw_other (s : AttrState V) (k k' : String) (v : V)
    (h : k' ≠ k) : getattr (setRaw s k v) k' = getattr s k' := by
  simp only [getattr, setRaw, List.find?]
  rw [show (k == k') = false from beq_false_of_ne (fun e => h e.symm)]

theorem update_preserves (data : List (String × V)) (s : AttrState V) (k : String)
    (hk : k ∉ data.map Prod.fst)
    (hro : ∀ n ∈ data.map Prod.fst, n ∉ dataViewNames ∧ n ∉ noSetterNames) :
    getattr (update s data).1 k = getattr s k := by
  induction data generalizing s with
  | nil => rfl
  | cons p rest ih =>
      obtain ⟨n, v⟩ := p
      rw [List.map_cons] at hk hro
      have hkn : k ≠ n := fun e => hk (e ▸ List.mem_cons_self _ _)
      have hkrest : k ∉ rest.map Prod.fst := fun h => hk (List.mem_cons_of_mem _ h)
      have hn := hro n (List.mem_cons_self _ _)
      rw [update, setattrCtx_ok s n v hn.1 hn.2]
      rw [ih (setRaw s n v) hkrest (fun m hm => hro m (List.mem_cons_of_mem _ hm))]
      exact getattr_setRaw_other s n k v hkn

theorem update_merges (data : List (String × V)) (s : AttrState V)
    (hro : ∀ n ∈ data.map Prod.fst, n ∉ dataViewNames ∧ n ∉ noSetterNames)
    (hnd : (data.map Prod.fst).Nodup) :
    (update s data).2 = none ∧
    ∀ kv ∈ data, getattr (update s data).1 kv.1 = some kv.2 := by
  induction data generalizing s with
  | nil => exact ⟨rfl, by simp⟩
  | cons p rest ih =>
      obtain ⟨n, v⟩ := p
      rw [List.map_cons] at hro hnd
      have hn := hro n (List.mem_cons_self _ _)
      have hrest : ∀ m ∈ rest.map Prod.fst, m ∉ dataViewNames ∧ m ∉ noSetterNames :=
        fun m hm => hro m (List.mem_cons_of_mem _ hm)
      have hnd' : (rest.map Prod.fst).Nodup := (List.nodup_cons.mp hnd).2
      have hnotin : n ∉ rest.map Prod.fst := (List.nodup_cons.mp hnd).1
      have step : update s ((n, v) :: rest) = update (setRaw s n v) rest := by
        rw [update, setattrCtx_ok s n v hn.1 hn.2]
      refine ⟨by rw [step]; exact (ih (setRaw s n v) hrest hnd').1, ?_⟩
      intro kv hkv
      rcases List.mem_cons.mp hkv with h | h
      · subst h
        rw [step, update_preserves rest (setRaw s n v) n hnotin hrest]
        exact getattr_setRaw_self s n v
      · rw [step]
        exact (ih (setRaw s n v) hrest hnd').2 kv h

end AttrState

/-! ## Claim theorems -/

/-- C1: for every context attribute state (however constructed, with or
without chat/user bindings) and every value `v`, assigning `v` to
`bot_data`, `chat_data` or `user_data` raises `AttributeError`
(ImmutableAttributeFault) with the source's message, and the stored
attribute state is unchanged by the failed assignment. -/
theorem c1_data_views_immutable {V : Type} (s : AttrState V) (v : V) :
    AttrState.setattrCtx s "bot_data" v =
      (s, some (PyErr.attributeError
        "You can not assign a new value to bot_data, see https://git.io/Jt6ic")) ∧
    AttrState.setattrCtx s "chat_data" v =
      (s, some (PyErr.attributeError
        "You can not assign a new value to chat_data, see https://git.io/Jt6ic")) ∧
    AttrState.setattrCtx s "user_data" v =
      (s, some (PyErr.attributeError
        "You can not assign a new value to user_data, see https://git.io/Jt6ic")) := by
  refine ⟨?_, ?_, ?_⟩ <;> rfl

/-- C7 counterexample: the claim quantifies over *every* finite mapping, but
`update` on the mapping `{"bot_data" ↦ 0}` raises `AttributeError`
(the key hits the raising property setter) instead of setting the pair,
and no attribute is stored. -/
theorem c7_counterexample :
    AttrState.update (V := Nat) ⟨[]⟩ [("bot_data", 0)] =
      (⟨[]⟩, some (PyErr.attributeError
        "You can not assign a new value to bot_data, see https://git.io/Jt6ic")) ∧
    AttrState.getattr (AttrState.update (V := Nat) ⟨[]⟩ [("bot_data", 0)]).1 "bot_data"
      = none := by
  refine ⟨?_, ?_⟩ <;> rfl

/-- C7 (amended): for every context attribute state and every finite mapping
with pairwise-distinct string keys, none of which is a read-only property
name (`bot_data`, `chat_data`, `user_data`, `dispatcher`, `bot`,
`job_queue`, `update_queue`, `match`), `update(mapping)` raises nothing and
sets every key/value pair of the mapping as an attribute — including the
fixed fields such as `job`, `error`, `args`, `matches` — so that each listed
attribute holds the mapped value afterwards. -/
theorem c7_update_generic_merge {V : Type} (s : AttrState V) (data : List (String × V))
    (hro : ∀ n ∈ data.map Prod.fst, n ∉ dataViewNames ∧ n ∉ noSetterNames)
    (hnd : (data.map Prod.fst).Nodup) :
    (AttrState.update s data).2 = none ∧
    ∀ kv ∈ data, AttrState.getattr (AttrState.update s data).1 kv.1 = some kv.2 :=
  AttrState.update_merges data s hro hnd

/-- C7 witness: `update` with the mapping `{"job" ↦ 1, "error" ↦ 2,
"args" ↦ 3, "matches" ↦ 4}` raises nothing and stores all four pairs. -/
theorem c7_witness :
    (AttrState.update (V := Nat) ⟨[]⟩
        [("job", 1), ("error", 2), ("args", 3), ("matches", 4)]).2 = none ∧
    ∀ kv ∈ [("job", 1), ("error", 2), ("args", 3), ("matches", 4)],
      AttrState.getattr
        (AttrState.update (V := Nat) ⟨[]⟩
          [("job", 1), ("error", 2), ("args", 3), ("matches", 4)]).1 kv.1 = some kv.2 :=
  c7_update_generic_merge ⟨[]⟩ [("job", 1), ("error", 2), ("args", 3), ("matches", 4)]
    (by decide) (by decide)

/-- C8: the `match` accessor returns `None` when `matches` is absent
(`None`) or an empty sequence, returns `matches[0]` when `matches` is
present and non-empty, and never faults (it always returns, for every state
of the `matches` field). -/
theorem c8_match_accessor {M : Type} (ctx : CallbackContext M) :
    (ctx.matches = none → ctx.matchAttr = Except.ok none) ∧
    (ctx.matches = some [] → ctx.matchAttr = Except.ok none) ∧
    (∀ x xs, ctx.matches = some (x :: xs) → ctx.matchAttr = Except.ok (some x)) ∧
    (∃ r, ctx.matchAttr = Except.ok r) := by
  refine ⟨?_, ?_, ?_, ?_⟩
  · intro h; simp [CallbackContext.matchAttr, CallbackContext.subscript0, h]
  · intro h; simp [CallbackContext.matchAttr, CallbackContext.subscript0, h]
  · intro x xs h; simp [CallbackContext.matchAttr, CallbackContext.subscript0, h]
  · rcases hm : ctx.matches with _ | ⟨_ | ⟨x, xs⟩⟩ <;>
      simp [CallbackContext.matchAttr, CallbackContext.subscript0, hm]

/-- C8 witness: on a context with `matches = [7]` the accessor returns
`7` without faulting. -/
theorem c8_witness :
    CallbackContext.matchAttr
        { CallbackContext.init (M := Nat) dSample with «matches» := some [7] }
      = Except.ok (some 7) :=
  (c8_match_accessor { CallbackContext.init (M := Nat) dSample with «matches» := some [7] }).2.2.1
    7 [] rfl

/-- The chat binding `from_update` resolves: the effective chat's id paired
with the dispatcher's stored dict (its address) for that id. -/
theorem from_update_chat_field {M : Type} (u : Update) (d : Dispatcher) :
    (CallbackContext.from_update (M := M) (UpdateObj.update u) d).chat_id_and_data
      = u.effective_chat.map (fun c => (c.id, d.chat_data c.id)) := by
  obtain ⟨ec, eu⟩ := u
  cases ec <;> cases eu <;> rfl

/-- The user binding `from_update` resolves. -/
theorem from_update_user_field {M : Type} (u : Update) (d : Dispatcher) :
    (CallbackContext.from_update (M := M) (UpdateObj.update u) d).user_id_and_data
      = u.effective_user.map (fun us => (us.id, d.user_data us.id)) := by
  obtain ⟨ec, eu⟩ := u
  cases ec <;> cases eu <;> rfl

/-- Writing a key through a dict address and reading the same key through
the same address sees the written value. -/
theorem readKey_writeKey_self {V : Type} (h : Heap V) (r : Nat) (k : String) (v : V) :
    readKey (writeKey h r k v) r k = some v := by
  simp [readKey, writeKey, List.find?]

/-- C6: for a context built by `from_update` from an update carrying an
effective chat (respectively user), `chat_data` (respectively `user_data`)
is the very dict instance — the same heap address, never a copy — that the
dispatcher's keyed store holds for that id; hence every future context built
for the same chat/user id shares that address, and a write through the
shared address is read back through it; when the update carries no chat or
no user the corresponding view resolves to `None`. -/
theorem c6_binding_identity {M V : Type} (d : Dispatcher) (u : Update) (c : Chat)
    (us : User) (hc : u.effective_chat = some c) (hu : u.effective_user = some us) :
    (CallbackContext.from_update (M := M) (UpdateObj.update u) d).chat_data
        = some (d.chat_data c.id) ∧
    (CallbackContext.from_update (M := M) (UpdateObj.update u) d).user_data
        = some (d.user_data us.id) ∧
    (∀ (u' : Update) (c' : Chat), u'.effective_chat = some c' → c'.id = c.id →
      (CallbackContext.from_update (M := M) (UpdateObj.update u') d).chat_data
        = (CallbackContext.from_update (M := M) (UpdateObj.update u) d).chat_data) ∧
    (∀ (u' : Update) (us' : User), u'.effective_user = some us' → us'.id = us.id →
      (CallbackContext.from_update (M := M) (UpdateObj.update u') d).user_data
        = (CallbackContext.from_update (M := M) (UpdateObj.update u) d).user_data) ∧
    (∀ (h : Heap V) (k : String) (v : V),
      readKey (writeKey h (d.chat_data c.id) k v) (d.chat_data c.id) k = some v) ∧
    (∀ (h : Heap V) (k : String) (v : V),
      readKey (writeKey h (d.user_data us.id) k v) (d.user_data us.id) k = some v) ∧
    (∀ u₂ : Update, u₂.effective_chat = none →
      (CallbackContext.from_update (M := M) (UpdateObj.update u₂) d).chat_data = none) ∧
    (∀ u₂ : Update, u₂.effective_user = none →
      (CallbackContext.from_update (M := M) (UpdateObj.update u₂) d).user_data = none) := by
  refine ⟨?_, ?_, ?_, ?_, ?_, ?_, ?_, ?_⟩
  · simp [CallbackContext.chat_data, from_update_chat_field, hc]
  · simp [CallbackContext.user_data, from_update_user_field, hu]
  · intro u' c' hc' hid
    simp [CallbackContext.chat_data, from_update_chat_field, hc, hc', hid]
  · intro u' us' hu' hid
    simp [CallbackContext.user_data, from_update_user_field, hu, hu', hid]
  · intro h k v; exact readKey_writeKey_self h _ k v
  · intro h k v; exact readKey_writeKey_self h _ k v
  · intro u₂ h₂; simp [CallbackContext.chat_data, from_update_chat_field, h₂]
  · intro u₂ h₂; simp [CallbackContext.user_data, from_update_user_field, h₂]

/-- C6 witness: for the sample dispatcher and an update with chat id 5 and
user id 7, `chat_data` is the store's address for id 5, a second context
for the same chat shares it, and a write through it is read back. -/
theorem c6_witness :
    (CallbackContext.from_update (M := Nat) (UpdateObj.update ⟨some ⟨5⟩, some ⟨7⟩⟩)
        dSample).chat_data = some (dSample.chat_data 5) ∧
    (CallbackContext.from_update (M := Nat) (UpdateObj.update ⟨some ⟨5⟩, none⟩)
        dSample).chat_data
      = (CallbackContext.from_update (M := Nat) (UpdateObj.update ⟨some ⟨5⟩, some ⟨7⟩⟩)
        dSample).chat_data ∧
    readKey (writeKey (V := Nat) (fun _ => []) (dSample.chat_data 5) "counter" 3)
        (dSample.chat_data 5) "counter" = some 3 := by
  have h := c6_binding_identity (M := Nat) (V := Nat) dSample ⟨some ⟨5⟩, some ⟨7⟩⟩
    ⟨5⟩ ⟨7⟩ rfl rfl
  exact ⟨h.1, h.2.2.1 ⟨some ⟨5⟩, none⟩ ⟨5⟩ rfl rfl,
    h.2.2.2.2.1 (fun _ => []) "counter" 3⟩

/-- C5: `drop_callback_data` raises the configuration `RuntimeError` when
the bot is an `ExtBot` whose arbitrary-callback-data flag is false — for
every cache state, so before and independently of any cache lookup — and
when the bot is a plain `Bot`; with the flag true it raises `KeyError` only
when the query's id cannot be located in the cache, and succeeds whenever
the id is present (in particular a found id whose cached payload is absent
is not an error), dropping the payload for that id. -/
theorem c5_drop_callback_data {M : Type} (ctx : CallbackContext M) (qid : String) :
    (∀ cache, ctx.bot = TgBot.ext false cache →
      ctx.drop_callback_data qid = Except.error (PyErr.runtimeError
        "This telegram.ext.ExtBot instance does not use arbitrary callback data.")) ∧
    (ctx.bot = TgBot.plain →
      ctx.drop_callback_data qid = Except.error (PyErr.runtimeError
        "telegram.Bot does not allow for arbitrary callback data.")) ∧
    (∀ cache, ctx.bot = TgBot.ext true cache → qid ∉ cache.entries.map Prod.fst →
      ctx.drop_callback_data qid = Except.error (PyErr.keyError qid)) ∧
    (∀ cache, ctx.bot = TgBot.ext true cache → qid ∈ cache.entries.map Prod.fst →
      ctx.drop_callback_data qid =
        Except.ok ⟨cache.entries.map (fun p => if p.1 = qid then (p.1, none) else p)⟩) := by
  refine ⟨?_, ?_, ?_, ?_⟩
  · intro cache hb
    simp [CallbackContext.drop_callback_data, hb]
  · intro hb
    simp [CallbackContext.drop_callback_data, hb]
  · intro cache hb hmem
    simp [CallbackContext.drop_callback_data, hb, CallbackDataCache.drop_data, hmem]
  · intro cache hb hmem
    simp [CallbackContext.drop_callback_data, hb, CallbackDataCache.drop_data, hmem]

/-- C5 witness: on a context whose `ExtBot` has the flag set and whose cache
holds the id `"q1"` with *no* cached payload, dropping succeeds (a missing
payload for a found id is not an error). -/
theorem c5_witness :
    CallbackContext.drop_callback_data (M := Nat)
        (CallbackContext.init { dSample with bot := TgBot.ext true ⟨[("q1", none)]⟩ }) "q1"
      = Except.ok ⟨[("q1", none)]⟩ := by
  have h := (c5_drop_callback_data (M := Nat)
    (CallbackContext.init { dSample with bot := TgBot.ext true ⟨[("q1", none)]⟩ })
    "q1").2.2.2 ⟨[("q1", none)]⟩ rfl (by decide)
  simpa using h

/-- C10: for every non-`None` object that is not an `Update` instance (the
`other` constructor), `from_update` yields exactly the plain unbound
construction `init dispatcher` — for *every* dispatcher, so no lookup into
the keyed stores can influence the result — with both bindings absent, and
any `from_error` context built over it also has both bindings absent. -/
theorem c10_non_update_object_unbound {M : Type} (d : Dispatcher) (tag : Nat)
    (err : PyErr) (as : Option (List Nat)) (ak : Option (List (String × Nat)))
    (j : Option Nat) :
    CallbackContext.from_update (M := M) (UpdateObj.other tag) d = CallbackContext.init d ∧
    (CallbackContext.from_update (M := M) (UpdateObj.other tag) d).chat_data = none ∧
    (CallbackContext.from_update (M := M) (UpdateObj.other tag) d).user_data = none ∧
    (CallbackContext.from_error (M := M) (UpdateObj.other tag) err d as ak j).chat_id_and_data
      = none ∧
    (CallbackContext.from_error (M := M) (UpdateObj.other tag) err d as ak j).user_id_and_data
      = none := by
  refine ⟨rfl, rfl, rfl, rfl, rfl⟩

/-- The call-local timeout `do_request` hands to the client, and the
post-call instance, in closed form: each dimension is the caller's override
when supplied, the instance default otherwise; the instance is returned
untouched. -/
theorem do_request_components (self : HTTPXRequest) (ct rt wt pt : Option ℚ)
    (net : NetOutcome) :
    (self.do_request ct rt wt pt net).2.1 =
      { connect := match ct with | some c => some c | none => self.client.timeout.connect,
        read := match rt with | some r => some r | none => self.client.timeout.read,
        write := match wt with | some w => some w | none => self.client.timeout.write,
        pool := match pt with | some p => some p | none => self.client.timeout.pool } ∧
    (self.do_request ct rt wt pt net).2.2 = self := by
  cases ct <;> cases rt <;> cases wt <;> cases pt <;> exact ⟨rfl, rfl⟩

/-- C2: for every `do_request` call, the effective timeout used for the
outgoing HTTP call equals, in each of the four dimensions, the
caller-supplied override when one was supplied for that dimension and the
instance's construction-time default otherwise; the instance-shared timeout
is never mutated (the post-call instance equals the pre-call instance), so
a subsequent call with no overrides still uses the unmodified instance
defaults — no cross-call interference. -/
theorem c2_per_call_timeout_merge (self : HTTPXRequest) (ct rt wt pt : Option ℚ)
    (net net₂ : NetOutcome) :
    (∀ x, ct = some x → (self.do_request ct rt wt pt net).2.1.connect = some x) ∧
    (ct = none →
      (self.do_request ct rt wt pt net).2.1.connect = self.client.timeout.connect) ∧
    (∀ x, rt = some x → (self.do_request ct rt wt pt net).2.1.read = some x) ∧
    (rt = none →
      (self.do_request ct rt wt pt net).2.1.read = self.client.timeout.read) ∧
    (∀ x, wt = some x → (self.do_request ct rt wt pt net).2.1.write = some x) ∧
    (wt = none →
      (self.do_request ct rt wt pt net).2.1.write = self.client.timeout.write) ∧
    (∀ x, pt = some x → (self.do_request ct rt wt pt net).2.1.pool = some x) ∧
    (pt = none →
      (self.do_request ct rt wt pt net).2.1.pool = self.client.timeout.pool) ∧
    (self.do_request ct rt wt pt net).2.2 = self ∧
    (((self.do_request ct rt wt pt net).2.2.do_request none none none none net₂).2.1
      = self.client.timeout) := by
  obtain ⟨heff, hinst⟩ := do_request_components self ct rt wt pt net
  refine ⟨?_, ?_, ?_, ?_, ?_, ?_, ?_, ?_, hinst, ?_⟩
  · intro x hx; rw [heff, hx]
  · intro hx; rw [heff, hx]
  · intro x hx; rw [heff, hx]
  · intro hx; rw [heff, hx]
  · intro x hx; rw [heff, hx]
  · intro hx; rw [heff, hx]
  · intro x hx; rw [heff, hx]
  · intro hx; rw [heff, hx]
  · rw [hinst, (do_request_components self none none none none net₂).1]

/-- C2 witness: an instance with the construction defaults, called with only
`read_timeout=2.0`, sends with read timeout 2.0 while connect/write/pool
stay at 5.0/5.0/1.0; a following call with no overrides still sends with
the unmodified defaults. -/
theorem c2_witness :
    (HTTPXRequest.constructDefault.do_request none (some 2) none none
        (NetOutcome.success 200 [])).2.1.read = some 2 ∧
    (HTTPXRequest.constructDefault.do_request none (some 2) none none
        (NetOutcome.success 200 [])).2.1.connect
      = HTTPXRequest.constructDefault.client.timeout.connect ∧
    ((HTTPXRequest.constructDefault.do_request none (some 2) none none
        (NetOutcome.success 200 [])).2.2.do_request none none none none
        (NetOutcome.success 200 [])).2.1
      = HTTPXRequest.constructDefault.client.timeout := by
  have h := c2_per_call_timeout_merge HTTPXRequest.constructDefault none (some 2) none
    none (NetOutcome.success 200 []) (NetOutcome.success 200 [])
  exact ⟨h.2.2.1 2 rfl, h.2.1 rfl, h.2.2.2.2.2.2.2.2.2⟩

/-- C3: on an open client, a timeout-class fault raised by the underlying
client always surfaces as `TimedOut` — never as `NetworkError` — because
the `httpx.TimeoutException` clause is tested before the `httpx.HTTPError`
catch-all; any other transport/protocol failure surfaces as
`NetworkError`. -/
theorem c3_timeout_before_network (self : HTTPXRequest) (ct rt wt pt : Option ℚ)
    (h : self.client.state = ClientState.opened) :
    (∀ k : TimeoutKind, (self.do_request ct rt wt pt (NetOutcome.timeoutErr k)).1
        = Except.error DoReqErr.timedOut) ∧
    (∀ m : String, (self.do_request ct rt wt pt (NetOutcome.httpErr m)).1
        = Except.error (DoReqErr.networkError ("httpx HTTPError: " ++ m))) := by
  constructor
  · intro k
    cases k <;>
      simp [HTTPXRequest.do_request, AsyncClient.request, h, TimeoutKind.toErr,
        ClientErr.isTimeoutException]
  · intro m
    simp [HTTPXRequest.do_request, AsyncClient.request, h,
      ClientErr.isTimeoutException, ClientErr.isHTTPError, ClientErr.httpErrMsg]

/-- C3 witness: a read timeout on the default instance surfaces as
`TimedOut`, and a non-timeout HTTP failure as `NetworkError`. -/
theorem c3_witness :
    (HTTPXRequest.constructDefault.do_request none none none none
        (NetOutcome.timeoutErr TimeoutKind.read)).1 = Except.error DoReqErr.timedOut ∧
    (HTTPXRequest.constructDefault.do_request none none none none
        (NetOutcome.httpErr "connection reset")).1
      = Except.error (DoReqErr.networkError "httpx HTTPError: connection reset") := by
  have h := c3_timeout_before_network HTTPXRequest.constructDefault none none none none rfl
  exact ⟨h.1 TimeoutKind.read, h.2 "connection reset"⟩

/-- C4 counterexample: after `stop()` the client is closed, and a
`do_request` failure escapes as the client's closed-state `RuntimeError`,
which is caught by neither `except` clause and lies outside the fixed
fault taxonomy — refuting the claim for the post-`stop` client state. -/
theorem c4_counterexample :
    (HTTPXRequest.constructDefault.stop.do_request none none none none
        (NetOutcome.success 200 [])).1
      = Except.error (DoReqErr.uncaught ClientErr.runtimeClosed) ∧
    DoReqErr.inTaxonomy (DoReqErr.uncaught ClientErr.runtimeClosed) = false := by
  exact ⟨rfl, rfl⟩

/-- C4 (amended): while the client is open, every `do_request` call that
does not return a `(status_code, body_bytes)` result fails with a fault of
the fixed taxonomy (`TimedOut` or `NetworkError`) and no client-specific
fault type crosses the transport boundary; after `stop()`, however, the
failure escapes as the closed client's unmapped `RuntimeError`. -/
theorem c4_open_taxonomy (self : HTTPXRequest) (ct rt wt pt : Option ℚ)
    (net : NetOutcome) (h : self.client.state = ClientState.opened) (e : DoReqErr)
    (he : (self.do_request ct rt wt pt net).1 = Except.error e) :
    e.inTaxonomy = true := by
  cases net with
  | success s b =>
      simp [HTTPXRequest.do_request, AsyncClient.request, h] at he
  | timeoutErr k =>
      cases k <;>
        simp [HTTPXRequest.do_request, AsyncClient.request, h, TimeoutKind.toErr,
          ClientErr.isTimeoutException] at he <;>
        simp [← he, DoReqErr.inTaxonomy]
  | httpErr m =>
      simp [HTTPXRequest.do_request, AsyncClient.request, h,
        ClientErr.isTimeoutException, ClientErr.isHTTPError] at he
      simp [← he, DoReqErr.inTaxonomy]

/-- C4 witness: a non-timeout HTTP failure on the open default instance is
mapped into the taxonomy. -/
theorem c4_witness :
    DoReqErr.inTaxonomy (DoReqErr.networkError "httpx HTTPError: boom") = true :=
  c4_open_taxonomy HTTPXRequest.constructDefault none none none none
    (NetOutcome.httpErr "boom") rfl (DoReqErr.networkError "httpx HTTPError: boom") rfl

/-- C9: after `stop()` has completed (the pooled client closed), every
subsequent `do_request` call — whatever its overrides and whatever the
network would have done — fails: it raises the closed client's error rather
than returning a success result (the embedding is a total function, so it
returns this failure rather than hanging). -/
theorem c9_do_request_after_stop_fails (self : HTTPXRequest)
    (ct rt wt pt : Option ℚ) (net : NetOutcome) :
    (self.stop.do_request ct rt wt pt net).1
      = Except.error (DoReqErr.uncaught ClientErr.runtimeClosed) := by
  rfl

end Spec2Proof
